import Mathlib

/-!
Shallow embedding of the `wgpu-learning` renderer core (src/state.rs,
src/texture.rs, src/model.rs, src/vertex.rs) and proofs of the spec claims.

Scalars that the Rust code stores as `f32` are modelled as real numbers; all
concrete values appearing in the source (10, 3.0, 0.1, 45.0, ...) are exactly
representable in `f32`, so the arithmetic performed here coincides with the
source's. Opaque GPU handles (device, queue, buffers, bind groups) are
modelled by the data used to create them or by symbolic references.
-/

namespace WgpuLearn

/-! ## Basic vector algebra (cgmath `Vector3<f32>` / `Point3<f32>`) -/

/-- A 3-component vector, modelling `cgmath::Vector3<f32>` (and `Point3`). -/
structure V3 where
  x : ℝ
  y : ℝ
  z : ℝ

instance : Zero V3 := ⟨⟨0, 0, 0⟩⟩

instance : Add V3 := ⟨fun a b => ⟨a.x + b.x, a.y + b.y, a.z + b.z⟩⟩

instance : Sub V3 := ⟨fun a b => ⟨a.x - b.x, a.y - b.y, a.z - b.z⟩⟩

instance : SMul ℝ V3 := ⟨fun c v => ⟨c * v.x, c * v.y, c * v.z⟩⟩

theorem V3.zero_def : (0 : V3) = ⟨0, 0, 0⟩ := rfl

theorem V3.add_def (a b : V3) : a + b = ⟨a.x + b.x, a.y + b.y, a.z + b.z⟩ := rfl

theorem V3.sub_def (a b : V3) : a - b = ⟨a.x - b.x, a.y - b.y, a.z - b.z⟩ := rfl

theorem V3.smul_def (c : ℝ) (v : V3) : c • v = ⟨c * v.x, c * v.y, c * v.z⟩ := rfl

/-- Models `cgmath::Vector3::unit_y()`. -/
def V3.unit_y : V3 := ⟨0, 1, 0⟩

/-- Models `cgmath::Vector3::unit_z()`. -/
def V3.unit_z : V3 := ⟨0, 0, 1⟩

/-- Models `cgmath::InnerSpace::magnitude` (Euclidean norm). -/
noncomputable def V3.magnitude (v : V3) : ℝ :=
  Real.sqrt (v.x ^ 2 + v.y ^ 2 + v.z ^ 2)

/-- Models `cgmath::InnerSpace::normalize`: `self * (1 / magnitude)`. -/
noncomputable def V3.normalize (v : V3) : V3 :=
  (1 / v.magnitude) • v

/-! ## wgpu descriptor enumerations (the variants the source uses) -/

inductive TextureFormat
  | Depth32Float
  | Rgba8UnormSrgb
  | Bgra8UnormSrgb
  deriving DecidableEq

inductive PresentMode
  | Fifo
  | Immediate
  deriving DecidableEq

inductive CompositeAlphaMode
  | Auto
  | Opaque
  deriving DecidableEq

inductive IndexFormat
  | Uint16
  | Uint32
  deriving DecidableEq

/-- Models `wgpu::TextureUsages` bit-set, modelled as one flag per bit the source
uses. -/
structure TextureUsages where
  render_attachment : Bool
  texture_binding : Bool
  copy_dst : Bool
  deriving DecidableEq

/-- Models `TextureUsages::RENDER_ATTACHMENT`. -/
def TextureUsages.RENDER_ATTACHMENT : TextureUsages := ⟨true, false, false⟩

/-- Models `TextureUsages::RENDER_ATTACHMENT | TextureUsages::TEXTURE_BINDING`. -/
def TextureUsages.renderAttachmentAndBinding : TextureUsages := ⟨true, true, false⟩

/-- Models `TextureUsages::TEXTURE_BINDING | TextureUsages::COPY_DST`. -/
def TextureUsages.bindingAndCopyDst : TextureUsages := ⟨false, true, true⟩

/-- Models `wgpu::SurfaceConfiguration` (src/state.rs lines 100-113). -/
structure SurfaceConfiguration where
  usage : TextureUsages
  format : TextureFormat
  width : ℕ
  height : ℕ
  present_mode : PresentMode
  alpha_mode : CompositeAlphaMode
  deriving DecidableEq

/-- Models `winit::dpi::PhysicalSize<u32>`. -/
structure PhysicalSize where
  width : ℕ
  height : ℕ
  deriving DecidableEq

/-! ## src/texture.rs -/

/-- The `Texture` struct of src/texture.rs owns a GPU texture, view and
sampler; the GPU handles are opaque, so the model records the creation
parameters of the owned texture (its `TextureDescriptor`). -/
structure Texture where
  width : ℕ
  height : ℕ
  mip_level_count : ℕ
  sample_count : ℕ
  format : TextureFormat
  usage : TextureUsages
  deriving DecidableEq

/-- Models `Texture::DEPTH_FORMAT` (src/texture.rs line 19). -/
def Texture.DEPTH_FORMAT : TextureFormat := TextureFormat.Depth32Float

/-- Models `Texture::create_depth_texture` (src/texture.rs lines 21-66): a texture
the size of `config`, one mip level, one sample, `DEPTH_FORMAT`, usage
`RENDER_ATTACHMENT | TEXTURE_BINDING`. -/
def Texture.create_depth_texture (config : SurfaceConfiguration) : Texture :=
  { width := config.width
    height := config.height
    mip_level_count := 1
    sample_count := 1
    format := Texture.DEPTH_FORMAT
    usage := TextureUsages.renderAttachmentAndBinding }

/-- A decoded `image::DynamicImage`: its pixel dimensions and whether the
source format carried an alpha channel (`false` for e.g. JPEG). -/
structure DynamicImage where
  width : ℕ
  height : ℕ
  has_alpha : Bool
  deriving DecidableEq

/-- Models `GenericImageView::dimensions`. -/
def DynamicImage.dimensions (img : DynamicImage) : ℕ × ℕ :=
  (img.width, img.height)

/-- An RGBA8 pixel buffer as produced by `DynamicImage::to_rgba8`. -/
structure RgbaImage where
  width : ℕ
  height : ℕ
  deriving DecidableEq

/-- Models `DynamicImage::to_rgba8`: total conversion, defined for alpha-less
formats as well (unlike `as_rgba8`, which the source comments note would
panic on JPEGs). -/
def DynamicImage.to_rgba8 (img : DynamicImage) : RgbaImage :=
  ⟨img.width, img.height⟩

/-- Models `Texture::from_image` (src/texture.rs lines 74-133): converts via
`to_rgba8`, creates an `Rgba8UnormSrgb` texture with one mip level at the
image's dimensions, uploads the pixels, and always succeeds. -/
def Texture.from_image (img : DynamicImage) : Except String Texture :=
  let _rgba : RgbaImage := img.to_rgba8
  let dimensions := img.dimensions
  Except.ok
    { width := dimensions.1
      height := dimensions.2
      mip_level_count := 1
      sample_count := 1
      format := TextureFormat.Rgba8UnormSrgb
      usage := TextureUsages.bindingAndCopyDst }

/-- Models `Texture::from_bytes` (src/texture.rs lines 68-72): decode the bytes
with `image::load_from_memory` (an external decoder, passed as a parameter),
propagating its error with `?`, then delegate to `from_image`. -/
def Texture.from_bytes (load_from_memory : List ℕ → Except String DynamicImage)
    (bytes : List ℕ) : Except String Texture :=
  match load_from_memory bytes with
  | Except.error e => Except.error e
  | Except.ok img => Texture.from_image img

/-! ## Camera (struct built in src/state.rs lines 228-239; the `Camera`
type itself and `CameraController` live in the repository's camera.rs,
which is not under src/ — they are modelled from the spec where needed) -/

structure Camera where
  eye : V3
  target : V3
  up : V3
  aspect : ℝ
  fovy : ℝ
  znear : ℝ
  zfar : ℝ

/-- Modelled from the spec: camera.rs (absent from src/) defines
`CameraController`, a "state machine over accumulated directional input:
`{forward, backward, left, right}` boolean flags" with a fixed speed;
`CameraController::new(0.1)` is called at src/state.rs line 277. -/
structure CameraController where
  speed : ℝ
  is_forward_pressed : Bool
  is_backward_pressed : Bool
  is_left_pressed : Bool
  is_right_pressed : Bool

/-- Models `CameraController::new(speed)`: all flags start cleared. -/
def CameraController.new (speed : ℝ) : CameraController :=
  ⟨speed, false, false, false, false⟩

/-- Models `cgmath::Vector3::cross`. -/
noncomputable def V3.cross (a b : V3) : V3 :=
  ⟨a.y * b.z - a.z * b.y, a.z * b.x - a.x * b.z, a.x * b.y - a.y * b.x⟩

/-- Modelled from the spec: camera.rs (absent from src/) defines
`CameraController::update_camera`, which per spec §4.3 "recomputes `eye` by
moving along the normalized (eye→target) vector for forward/backward and
along its right-hand cross product with `up` for left/right, scaled by a
fixed speed constant", leaving the rest of the camera unchanged. -/
noncomputable def CameraController.update_camera (c : CameraController)
    (cam : Camera) : Camera :=
  let forward_norm := (cam.target - cam.eye).normalize
  let right := forward_norm.cross cam.up
  let eye1 := if c.is_forward_pressed then cam.eye + c.speed • forward_norm else cam.eye
  let eye2 := if c.is_backward_pressed then eye1 - c.speed • forward_norm else eye1
  let eye3 := if c.is_right_pressed then eye2 + c.speed • right else eye2
  let eye4 := if c.is_left_pressed then eye3 - c.speed • right else eye3
  { cam with eye := eye4 }

/-! ## Instances (grid built in src/state.rs lines 360-387; the `Instance`
struct and `Instance::to_raw` live in the repository's instance.rs, which is
not under src/ — `to_raw` is modelled from the spec) -/

/-- A quaternion `w + x i + y j + z k`, modelling `cgmath::Quaternion<f32>`. -/
structure Quat where
  w : ℝ
  x : ℝ
  y : ℝ
  z : ℝ

/-- Models `cgmath::Quaternion::from_axis_angle(axis, Deg(d))`: half-angle in
radians is `d * π / 360`. -/
noncomputable def Quat.from_axis_angle (axis : V3) (deg : ℝ) : Quat :=
  ⟨Real.cos (deg * Real.pi / 360),
   Real.sin (deg * Real.pi / 360) * axis.x,
   Real.sin (deg * Real.pi / 360) * axis.y,
   Real.sin (deg * Real.pi / 360) * axis.z⟩

/-- The identity (zero-angle) quaternion. -/
def Quat.identity : Quat := ⟨1, 0, 0, 0⟩

/-- The logical per-instance transform (spec §3 `Instance`; the struct is in
instance.rs, constructed at src/state.rs line 376). -/
structure Instance where
  position : V3
  rotation : Quat

/-- Per-instance grid position at cell `(z, x)` as computed inline in
src/state.rs lines 365-368:
`SPACE_BETWEEN * (x as f32 - NUM_INSTANCES_PER_ROW as f32 / 2.0)` for the x
and z coordinates, y = 0. -/
noncomputable def gridPosition (n : ℕ) (space_between : ℝ) (z x : ℕ) : V3 :=
  ⟨space_between * ((x : ℝ) - (n : ℝ) / 2), 0,
   space_between * ((z : ℝ) - (n : ℝ) / 2)⟩

open Classical in
/-- The instance at grid cell `(z, x)` (src/state.rs lines 364-376): the
rotation is the zero-angle rotation about `unit_z` when the position is the
zero vector (`position.is_zero()`), and otherwise a 45° rotation about the
normalized position. -/
noncomputable def instanceAt (n : ℕ) (space_between : ℝ) (z x : ℕ) : Instance :=
  let position := gridPosition n space_between z x
  let rotation :=
    if position = 0 then Quat.from_axis_angle V3.unit_z 0
    else Quat.from_axis_angle position.normalize 45
  ⟨position, rotation⟩

/-- Models `const NUM_INSTANCES_PER_ROW: u32 = 10` (src/state.rs line 56). -/
def NUM_INSTANCES_PER_ROW : ℕ := 10

/-- Models `const SPACE_BETWEEN: f32 = 3.0` (src/state.rs line 360). -/
def SPACE_BETWEEN : ℝ := 3

/-- The instance grid of src/state.rs lines 362-379:
`(0..n).flat_map(|z| (0..n).map(move |x| ...))`. -/
noncomputable def buildInstances (n : ℕ) (space_between : ℝ) : List Instance :=
  (List.range n).flatMap fun z => (List.range n).map fun x =>
    instanceAt n space_between z x

/-- A 4×4 `f32` matrix (`cgmath::Matrix4<f32>` / `InstanceRaw`'s
`[[f32; 4]; 4]`). -/
abbrev Mat4 := Matrix (Fin 4) (Fin 4) ℝ

/-- Models `cgmath::Matrix4::from_translation(p)`: the identity with `p` in the
translation column. -/
noncomputable def Matrix4.from_translation (p : V3) : Mat4 :=
  !![1, 0, 0, p.x;
     0, 1, 0, p.y;
     0, 0, 1, p.z;
     0, 0, 0, 1]

/-- Models `cgmath::Matrix4::from(q)` for a unit quaternion `q`: the homogeneous
rotation matrix. -/
noncomputable def Matrix4.from_quat (q : Quat) : Mat4 :=
  !![1 - 2 * (q.y ^ 2 + q.z ^ 2), 2 * (q.x * q.y - q.z * q.w), 2 * (q.x * q.z + q.y * q.w), 0;
     2 * (q.x * q.y + q.z * q.w), 1 - 2 * (q.x ^ 2 + q.z ^ 2), 2 * (q.y * q.z - q.x * q.w), 0;
     2 * (q.x * q.z - q.y * q.w), 2 * (q.y * q.z + q.x * q.w), 1 - 2 * (q.x ^ 2 + q.y ^ 2), 0;
     0, 0, 0, 1]

/-- Modelled from the spec: instance.rs (absent from src/) defines
`Instance::to_raw`; per spec §3, "derived `InstanceRaw` = 4×4 row-major
model matrix = translation(position) ∘ rotation". -/
noncomputable def Instance.to_raw (i : Instance) : Mat4 :=
  Matrix4.from_translation i.position * Matrix4.from_quat i.rotation

/-- Models `instances.iter().map(Instance::to_raw).collect()`
(src/state.rs line 381). -/
noncomputable def instancesToRaw (instances : List Instance) : List Mat4 :=
  instances.map Instance.to_raw

/-! ## src/model.rs -/

/-- Models `model::Material` (src/model.rs lines 11-15): the GPU texture and bind
group are opaque handles, modelled by a numeric bind-group id. -/
structure Material where
  name : String
  bind_group : ℕ
  deriving DecidableEq

/-- Models `model::Mesh` (src/model.rs lines 17-23): the vertex and index buffers
are opaque GPU handles referenced symbolically by the render commands, so
the model keeps the element count and the material index. -/
structure Mesh where
  name : String
  num_elements : ℕ
  material : ℕ
  deriving DecidableEq

/-- Models `model::Model` (src/model.rs lines 25-28). -/
structure Model where
  meshes : List Mesh
  materials : List Material
  deriving DecidableEq

/-! ## Render pipeline descriptor (src/state.rs lines 295-342) -/

inductive PrimitiveTopology
  | PointList
  | LineList
  | TriangleList
  deriving DecidableEq

inductive FrontFace
  | Ccw
  | Cw
  deriving DecidableEq

inductive Face
  | Front
  | Back
  deriving DecidableEq

inductive PolygonMode
  | Fill
  | Line
  deriving DecidableEq

inductive CompareFunction
  | Never
  | Less
  | LessEqual
  | Always
  deriving DecidableEq

inductive BlendFactor
  | Zero
  | One
  deriving DecidableEq

inductive BlendOperation
  | Add
  deriving DecidableEq

/-- Models `wgpu::BlendComponent`. -/
structure BlendComponent where
  src_factor : BlendFactor
  dst_factor : BlendFactor
  operation : BlendOperation
  deriving DecidableEq

/-- Models `wgpu::BlendState`. -/
structure BlendState where
  color : BlendComponent
  alpha : BlendComponent
  deriving DecidableEq

/-- Models `wgpu::BlendState::REPLACE`: source replaces destination in both
components. -/
def BlendState.REPLACE : BlendState :=
  ⟨⟨BlendFactor.One, BlendFactor.Zero, BlendOperation.Add⟩,
   ⟨BlendFactor.One, BlendFactor.Zero, BlendOperation.Add⟩⟩

inductive StencilOperation
  | Keep
  | Zero
  | Replace
  deriving DecidableEq

/-- Models `wgpu::StencilFaceState`. -/
structure StencilFaceState where
  compare : CompareFunction
  fail_op : StencilOperation
  depth_fail_op : StencilOperation
  pass_op : StencilOperation
  deriving DecidableEq

/-- Models `wgpu::StencilFaceState::IGNORE` (the `Default`). -/
def StencilFaceState.IGNORE : StencilFaceState :=
  ⟨CompareFunction.Always, StencilOperation.Keep, StencilOperation.Keep,
   StencilOperation.Keep⟩

/-- Models `wgpu::StencilState` with `StencilState::default()`: both faces ignored,
zero masks — no stencil operations. -/
structure StencilState where
  front : StencilFaceState
  back : StencilFaceState
  read_mask : ℕ
  write_mask : ℕ
  deriving DecidableEq

def StencilState.default : StencilState :=
  ⟨StencilFaceState.IGNORE, StencilFaceState.IGNORE, 0, 0⟩

/-- Models `wgpu::DepthBiasState` with `default()` = all zero. -/
structure DepthBiasState where
  constant : ℤ
  slope_scale : ℝ
  clamp : ℝ

def DepthBiasState.default : DepthBiasState := ⟨0, 0, 0⟩

/-- Models `wgpu::PrimitiveState` (src/state.rs lines 315-324). -/
structure PrimitiveState where
  topology : PrimitiveTopology
  strip_index_format : Option IndexFormat
  front_face : FrontFace
  cull_mode : Option Face
  polygon_mode : PolygonMode
  unclipped_depth : Bool
  conservative : Bool
  deriving DecidableEq

/-- Models `wgpu::DepthStencilState` (src/state.rs lines 325-331). -/
structure DepthStencilState where
  format : TextureFormat
  depth_write_enabled : Bool
  depth_compare : CompareFunction
  stencil : StencilState
  bias : DepthBiasState

/-- Models `wgpu::MultisampleState` (src/state.rs lines 332-339); `mask: !0` is all
64 bits set. -/
structure MultisampleState where
  count : ℕ
  mask : ℕ
  alpha_to_coverage_enabled : Bool
  deriving DecidableEq

/-- Models `wgpu::ColorWrites` bit-set; `ALL` = red, green, blue, alpha. -/
structure ColorWrites where
  red : Bool
  green : Bool
  blue : Bool
  alpha : Bool
  deriving DecidableEq

def ColorWrites.ALL : ColorWrites := ⟨true, true, true, true⟩

/-- Models `wgpu::ColorTargetState` (src/state.rs lines 308-312). -/
structure ColorTargetState where
  format : TextureFormat
  blend : Option BlendState
  write_mask : ColorWrites
  deriving DecidableEq

/-- Models `wgpu::VertexState` (src/state.rs lines 298-303): the shader module is
opaque; the entry point name is kept. -/
structure VertexState where
  entry_point : String
  deriving DecidableEq

/-- Models `wgpu::FragmentState` (src/state.rs lines 304-313). -/
structure FragmentState where
  entry_point : String
  targets : List (Option ColorTargetState)
  deriving DecidableEq

/-- The `RenderPipelineDescriptor` fields of src/state.rs lines 295-342 that
describe fixed-function configuration. -/
structure RenderPipelineDescriptor where
  vertex : VertexState
  fragment : Option FragmentState
  primitive : PrimitiveState
  depth_stencil : Option DepthStencilState
  multisample : MultisampleState

/-- The render pipeline created in `State::new` (src/state.rs lines
295-342), as a function of the surface configuration (whose `format` feeds
the color target). -/
def createStateRenderPipeline (config : SurfaceConfiguration) :
    RenderPipelineDescriptor :=
  { vertex := { entry_point := "vs_main" }
    fragment := some
      { entry_point := "fs_main"
        targets := [some
          { format := config.format
            blend := some BlendState.REPLACE
            write_mask := ColorWrites.ALL }] }
    primitive :=
      { topology := PrimitiveTopology.TriangleList
        strip_index_format := none
        front_face := FrontFace.Ccw
        cull_mode := some Face.Back
        polygon_mode := PolygonMode.Fill
        unclipped_depth := false
        conservative := false }
    depth_stencil := some
      { format := Texture.DEPTH_FORMAT
        depth_write_enabled := true
        depth_compare := CompareFunction.Less
        stencil := StencilState.default
        bias := DepthBiasState.default }
    multisample :=
      { count := 1
        mask := 2 ^ 64 - 1
        alpha_to_coverage_enabled := false } }

/-! ## `State` (src/state.rs lines 31-54) and `State::resize` -/

/-- The fields of `struct State` that the verified claims touch. GPU handles
(`surface`, `device`, `queue`, the buffers and bind groups) are modelled by
their observable data: `surface_applied` is the configuration last applied
to the surface by `surface.configure`, and `instance_buffer` holds the raw
matrix contents uploaded at creation. -/
structure State where
  config : SurfaceConfiguration
  surface_applied : SurfaceConfiguration
  size : PhysicalSize
  render_pipeline : RenderPipelineDescriptor
  num_indices : ℕ
  camera : Camera
  camera_controller : CameraController
  instances : List Instance
  instance_buffer : List Mat4
  depth_texture : Texture
  obj_model : Model

/-- Models `State::resize` (src/state.rs lines 423-434): when both dimensions are
positive, store the new size, update the config's width and height, recreate
the depth texture from the updated config, and re-apply the config to the
surface; otherwise do nothing. -/
def State.resize (s : State) (new_size : PhysicalSize) : State :=
  if new_size.width > 0 ∧ new_size.height > 0 then
    let config := { s.config with width := new_size.width, height := new_size.height }
    { s with
        size := new_size
        config := config
        depth_texture := Texture.create_depth_texture config
        surface_applied := config }
  else s

/-! ## `State::render` (src/state.rs lines 448-526) -/

/-- Models `wgpu::SurfaceError`, the error type of `surface.get_current_texture`. -/
inductive SurfaceError
  | Timeout
  | Outdated
  | Lost
  | OutOfMemory
  deriving DecidableEq

/-- Buffers a render command can reference (opaque GPU handles referenced
symbolically). -/
inductive BufferRef
  | state_vertex_buffer
  | state_index_buffer
  | state_instance_buffer
  | mesh_vertex_buffer (mesh : ℕ)
  | mesh_index_buffer (mesh : ℕ)
  deriving DecidableEq

/-- Bind groups a render command can reference. -/
inductive BindGroupRef
  | diffuse_bind_group
  | camera_bind_group
  | material_bind_group (bind_group : ℕ)
  deriving DecidableEq

/-- Commands recorded into the single render pass of `State::render`. -/
inductive RenderCommand
  | set_pipeline
  | set_vertex_buffer (slot : ℕ) (buffer : BufferRef)
  | set_index_buffer (buffer : BufferRef) (format : IndexFormat)
  | set_bind_group (index : ℕ) (group : BindGroupRef)
  | draw_indexed (index_start index_end : ℕ) (base_vertex : ℤ)
      (instance_start instance_end : ℕ)
  deriving DecidableEq

/-- Modelled from the spec: `DrawModel::draw_mesh_instanced` lives in the
repository's resources.rs, which is not under src/. Per spec §4.6 step 3 it
binds vertex buffer slot 0 to the mesh's geometry, binds the mesh's index
buffer, binds the texture+sampler group (slot 0) and camera uniform group
(slot 1), and issues one indexed draw covering `instances`. -/
def drawMeshInstanced (meshIndex : ℕ) (mesh : Mesh)
    (instance_start instance_end : ℕ) : List RenderCommand :=
  [RenderCommand.set_vertex_buffer 0 (BufferRef.mesh_vertex_buffer meshIndex),
   RenderCommand.set_index_buffer (BufferRef.mesh_index_buffer meshIndex) IndexFormat.Uint32,
   RenderCommand.set_bind_group 0 (BindGroupRef.material_bind_group mesh.material),
   RenderCommand.set_bind_group 1 BindGroupRef.camera_bind_group,
   RenderCommand.draw_indexed 0 mesh.num_elements 0 instance_start instance_end]

/-- Modelled from the spec: `DrawModel::draw_model_instanced` lives in the
repository's resources.rs, which is not under src/. Per spec §4.6 step 3 it
draws each mesh once, in the model's mesh order, with the given instance
range. -/
def drawModelInstanced (model : Model) (instance_start instance_end : ℕ) :
    List RenderCommand :=
  (model.meshes.enum.map fun p =>
    drawMeshInstanced p.1 p.2 instance_start instance_end).flatten

/-- The commands `State::render` records into its render pass (src/state.rs
lines 491-517), in source order: set the pipeline, bind the pentagon vertex
buffer to slot 0, bind the diffuse and camera groups, re-bind slot 0, bind
the instance buffer to slot 1, bind the pentagon index buffer as `Uint16`,
draw the pentagon indices over all instances, then draw the loaded model
over all instances. -/
def State.recordedCommands (s : State) : List RenderCommand :=
  [RenderCommand.set_pipeline,
   RenderCommand.set_vertex_buffer 0 BufferRef.state_vertex_buffer,
   RenderCommand.set_bind_group 0 BindGroupRef.diffuse_bind_group,
   RenderCommand.set_bind_group 1 BindGroupRef.camera_bind_group,
   RenderCommand.set_vertex_buffer 0 BufferRef.state_vertex_buffer,
   RenderCommand.set_vertex_buffer 1 BufferRef.state_instance_buffer,
   RenderCommand.set_index_buffer BufferRef.state_index_buffer IndexFormat.Uint16,
   RenderCommand.draw_indexed 0 s.num_indices 0 0 s.instances.length]
  ++ drawModelInstanced s.obj_model 0 s.instances.length

/-- Models `State::render` (src/state.rs lines 448-526). The first statement is
`let output = self.surface.get_current_texture()?;` — the acquisition result
comes from the GPU and is a parameter here — so any `SurfaceError` is
returned to the caller immediately by `?`; `State` is not mutated and the
surface is not reconfigured on any error. On success the render pass is
recorded, submitted and presented. -/
def State.render (s : State) (acquired : Except SurfaceError Unit) :
    Except SurfaceError (List RenderCommand) :=
  match acquired with
  | Except.error e => Except.error e
  | Except.ok _ => Except.ok s.recordedCommands

/-- The draw calls among a command list, as tuples
`(index_start, index_end, base_vertex, instance_start, instance_end)`. -/
def drawsOf (commands : List RenderCommand) : List (ℕ × ℕ × ℤ × ℕ × ℕ) :=
  commands.filterMap fun c =>
    match c with
    | RenderCommand.draw_indexed a b v c d => some (a, b, v, c, d)
    | _ => none

/-! ## The initial state built by `State::new` (src/state.rs lines 64-417) -/

/-- The `SurfaceConfiguration` literal of src/state.rs lines 100-113; the
supported surface format comes from the adapter and is a parameter. -/
def initialConfig (size : PhysicalSize) (format : TextureFormat) :
    SurfaceConfiguration :=
  { usage := TextureUsages.RENDER_ATTACHMENT
    format := format
    width := size.width
    height := size.height
    present_mode := PresentMode.Fifo
    alpha_mode := CompositeAlphaMode.Auto }

/-- The `Camera` literal of src/state.rs lines 228-239: eye one unit up and
two back, target at the origin, `up = unit_y`, aspect = config width over
height, fovy 45, znear 0.1, zfar 100. -/
noncomputable def initialCamera (config : SurfaceConfiguration) : Camera :=
  { eye := ⟨0, 1, 2⟩
    target := ⟨0, 0, 0⟩
    up := V3.unit_y
    aspect := (config.width : ℝ) / (config.height : ℝ)
    fovy := 45
    znear := 0.1
    zfar := 100 }

/-- Models `State::new` (src/state.rs lines 64-417) restricted to the modelled
fields. The surface format and the model loaded from "cube.obj" come from
outside the core and are parameters; `INDICES.len() = 9`
(src/vertex.rs line 78). -/
noncomputable def State.new (size : PhysicalSize) (format : TextureFormat)
    (obj_model : Model) : State :=
  let config := initialConfig size format
  { config := config
    surface_applied := config
    size := size
    render_pipeline := createStateRenderPipeline config
    num_indices := 9
    camera := initialCamera config
    camera_controller := CameraController.new 0.1
    instances := buildInstances NUM_INSTANCES_PER_ROW SPACE_BETWEEN
    instance_buffer := instancesToRaw (buildInstances NUM_INSTANCES_PER_ROW SPACE_BETWEEN)
    depth_texture := Texture.create_depth_texture config
    obj_model := obj_model }

/-! ## Concrete states used by witnesses and counterexamples -/

/-- A model shaped like the loaded "cube.obj": one mesh, one material. -/
def cubeModel : Model := ⟨[⟨"cube", 36, 0⟩], [⟨"cube-material", 2⟩]⟩

/-- The state `State::new` builds for an 800×600 window whose surface
reports `Bgra8UnormSrgb`, with the cube model loaded. -/
noncomputable def stateA : State :=
  State.new ⟨800, 600⟩ TextureFormat.Bgra8UnormSrgb cubeModel

/-! ## C1 — render error propagation -/

/-- C1 (counterexample): when surface acquisition fails with
`SurfaceOutdated`, `State::render` does not reconfigure and complete the
frame — it returns the error to its caller (the `?` at src/state.rs line
449). -/
theorem render_outdated_counterexample :
    stateA.render (Except.error SurfaceError.Outdated) =
      Except.error SurfaceError.Outdated := rfl

/-- C1 (amended): `State::render` propagates every surface-acquisition
error — `SurfaceOutdated` and `SurfaceLost` alike, on the first occurrence —
directly to its caller without reconfiguring, retrying, or counting
failures; on successful acquisition it records and submits the frame's
commands. -/
theorem render_propagates_acquire_error (s : State) (e : SurfaceError) :
    s.render (Except.error e) = Except.error e ∧
    s.render (Except.ok ()) = Except.ok s.recordedCommands :=
  ⟨rfl, rfl⟩

/-! ## C2 — resize updates surface and depth texture but not the camera -/

/-- C2 (counterexample): resizing the freshly created 800×600 state to
400×400 leaves the camera's aspect ratio at 800/600; it is not updated to
the new width/height ratio 400/400 = 1. -/
theorem resize_aspect_counterexample :
    ((stateA.resize ⟨400, 400⟩).camera.aspect = (800 : ℝ) / 600) ∧
    (stateA.resize ⟨400, 400⟩).camera.aspect ≠ (400 : ℝ) / 400 := by
  have h : (stateA.resize ⟨400, 400⟩).camera.aspect = (800 : ℝ) / 600 := by
    show ((800 : ℕ) : ℝ) / ((600 : ℕ) : ℝ) = (800 : ℝ) / 600
    norm_num
  refine ⟨h, ?_⟩
  rw [h]
  norm_num

/-- C2 (amended): for `new_size` with positive width and height,
`State::resize` re-applies the surface configuration at the new dimensions
and recreates the depth texture at the new dimensions, but leaves the camera
(and hence its aspect ratio) entirely unchanged. -/
theorem resize_updates_surface_and_depth_not_camera (s : State)
    (ns : PhysicalSize) (hw : ns.width > 0) (hh : ns.height > 0) :
    (s.resize ns).surface_applied =
      { s.config with width := ns.width, height := ns.height } ∧
    (s.resize ns).surface_applied.width = ns.width ∧
    (s.resize ns).surface_applied.height = ns.height ∧
    (s.resize ns).depth_texture.width = ns.width ∧
    (s.resize ns).depth_texture.height = ns.height ∧
    (s.resize ns).camera = s.camera := by
  simp [State.resize, hw, hh, Texture.create_depth_texture]

/-- C2 witness at a concrete input. -/
theorem resize_updates_surface_and_depth_not_camera_witness :
    (stateA.resize ⟨400, 400⟩).surface_applied.width = 400 ∧
    (stateA.resize ⟨400, 400⟩).depth_texture.height = 400 ∧
    (stateA.resize ⟨400, 400⟩).camera = stateA.camera := by
  have h := resize_updates_surface_and_depth_not_camera stateA ⟨400, 400⟩
    (by decide) (by decide)
  exact ⟨h.2.1, h.2.2.2.2.1, h.2.2.2.2.2⟩

/-! ## C3 — resize dimension behaviour, including the zero guard -/

/-- C3: for a resize to `(w, h)` with `w > 0` and `h > 0`, the stored
surface configuration and the depth texture both end with width `w` and
height `h`; for `w = 0` or `h = 0` the call is a no-op and the whole state
(configuration and depth texture included) is unchanged. -/
theorem resize_dimension_spec (s : State) (ns : PhysicalSize) :
    (ns.width > 0 → ns.height > 0 →
      (s.resize ns).config.width = ns.width ∧
      (s.resize ns).config.height = ns.height ∧
      (s.resize ns).depth_texture.width = ns.width ∧
      (s.resize ns).depth_texture.height = ns.height) ∧
    (ns.width = 0 ∨ ns.height = 0 → s.resize ns = s) := by
  constructor
  · intro hw hh
    simp [State.resize, hw, hh, Texture.create_depth_texture]
  · intro h
    have hc : ¬(ns.width > 0 ∧ ns.height > 0) := by
      rcases h with h | h <;> omega
    simp [State.resize, hc]

/-- C3 witness: the positive branch at 640×480 and the zero-width no-op. -/
theorem resize_dimension_spec_witness :
    ((stateA.resize ⟨640, 480⟩).config.width = 640 ∧
      (stateA.resize ⟨640, 480⟩).config.height = 480 ∧
      (stateA.resize ⟨640, 480⟩).depth_texture.width = 640 ∧
      (stateA.resize ⟨640, 480⟩).depth_texture.height = 480) ∧
    stateA.resize ⟨0, 480⟩ = stateA :=
  ⟨(resize_dimension_spec stateA ⟨640, 480⟩).1 (by decide) (by decide),
   (resize_dimension_spec stateA ⟨0, 480⟩).2 (Or.inl rfl)⟩

/-! ## C9 — resize touches nothing besides size, config dimensions and the
depth texture -/

/-- C9: every `State::resize` call leaves the surface configuration's
usage, format, present mode and alpha mode, as well as the camera, the
instance list, the instance buffer and the render pipeline, unchanged. -/
theorem resize_preserves_other_fields (s : State) (ns : PhysicalSize) :
    (s.resize ns).config.usage = s.config.usage ∧
    (s.resize ns).config.format = s.config.format ∧
    (s.resize ns).config.present_mode = s.config.present_mode ∧
    (s.resize ns).config.alpha_mode = s.config.alpha_mode ∧
    (s.resize ns).camera = s.camera ∧
    (s.resize ns).instances = s.instances ∧
    (s.resize ns).instance_buffer = s.instance_buffer ∧
    (s.resize ns).render_pipeline = s.render_pipeline := by
  unfold State.resize
  split <;> simp

/-! ## C8 — the fixed render pipeline configuration -/

/-- C8: the pipeline of `State::new` uses triangle-list topology, back-face
culling with counter-clockwise front face, a single sample, plain replace
blending, depth compare `Less` with depth writes enabled, and default (no-op)
stencil state. -/
theorem render_pipeline_fixed_function_config (config : SurfaceConfiguration) :
    (createStateRenderPipeline config).primitive.topology =
      PrimitiveTopology.TriangleList ∧
    (createStateRenderPipeline config).primitive.cull_mode = some Face.Back ∧
    (createStateRenderPipeline config).primitive.front_face = FrontFace.Ccw ∧
    (createStateRenderPipeline config).multisample.count = 1 ∧
    (createStateRenderPipeline config).fragment = some
      { entry_point := "fs_main"
        targets := [some
          { format := config.format
            blend := some BlendState.REPLACE
            write_mask := ColorWrites.ALL }] } ∧
    (createStateRenderPipeline config).depth_stencil = some
      { format := Texture.DEPTH_FORMAT
        depth_write_enabled := true
        depth_compare := CompareFunction.Less
        stencil := StencilState.default
        bias := DepthBiasState.default } :=
  ⟨rfl, rfl, rfl, rfl, rfl, rfl⟩

/-! ## C10 — texture creation from encoded bytes -/

/-- C10: `Texture::from_bytes` fails exactly when the byte decoder fails
(propagating its error), and on success — for every decoded image,
alpha-less formats included — yields an `Rgba8UnormSrgb` texture with one
mip level at the decoded image's dimensions. -/
theorem from_bytes_spec (load_from_memory : List ℕ → Except String DynamicImage)
    (bytes : List ℕ) :
    (∀ e, load_from_memory bytes = Except.error e →
      Texture.from_bytes load_from_memory bytes = Except.error e) ∧
    (∀ img, load_from_memory bytes = Except.ok img →
      Texture.from_bytes load_from_memory bytes = Except.ok
        { width := img.width
          height := img.height
          mip_level_count := 1
          sample_count := 1
          format := TextureFormat.Rgba8UnormSrgb
          usage := TextureUsages.bindingAndCopyDst }) := by
  constructor
  · intro e he
    simp [Texture.from_bytes, he]
  · intro img hi
    simp [Texture.from_bytes, hi, Texture.from_image, DynamicImage.dimensions]

/-- C10 witness: a decoder succeeding with an alpha-less 7×5 image, and a
failing decoder. -/
theorem from_bytes_spec_witness :
    Texture.from_bytes (fun _ => Except.ok ⟨7, 5, false⟩) [] = Except.ok
      { width := 7
        height := 5
        mip_level_count := 1
        sample_count := 1
        format := TextureFormat.Rgba8UnormSrgb
        usage := TextureUsages.bindingAndCopyDst } ∧
    Texture.from_bytes (fun _ => Except.error "decode failure") [] =
      Except.error "decode failure" :=
  ⟨(from_bytes_spec (fun _ => Except.ok ⟨7, 5, false⟩) []).2 ⟨7, 5, false⟩ rfl,
   (from_bytes_spec (fun _ => Except.error "decode failure") []).1
     "decode failure" rfl⟩

/-! ## C5 — the draw sequence of one recorded frame -/

lemma drawsOf_drawMeshInstanced (i : ℕ) (m : Mesh) (a b : ℕ) :
    drawsOf (drawMeshInstanced i m a b) = [(0, m.num_elements, 0, a, b)] := rfl

lemma drawsOf_append (l₁ l₂ : List RenderCommand) :
    drawsOf (l₁ ++ l₂) = drawsOf l₁ ++ drawsOf l₂ :=
  List.filterMap_append ..

lemma drawsOf_enumFrom (l : List Mesh) (k a b : ℕ) :
    drawsOf ((l.enumFrom k).map fun p => drawMeshInstanced p.1 p.2 a b).flatten =
      l.map fun m => (0, m.num_elements, 0, a, b) := by
  induction l generalizing k with
  | nil => rfl
  | cons m t ih =>
      simp only [List.enumFrom, List.map_cons, List.flatten_cons, drawsOf_append,
        drawsOf_drawMeshInstanced, List.singleton_append]
      rw [ih]

lemma drawsOf_drawModelInstanced (model : Model) (a b : ℕ) :
    drawsOf (drawModelInstanced model a b) =
      model.meshes.map fun m => (0, m.num_elements, 0, a, b) := by
  unfold drawModelInstanced List.enum
  exact drawsOf_enumFrom model.meshes 0 a b

/-- C5 (counterexample): with a one-mesh model loaded, the frame recorded by
`State::render` contains two indexed draws — the tutorial pentagon draw of
src/state.rs line 508 precedes the model's per-mesh draw — not exactly one
draw per mesh of the model. -/
theorem render_draws_counterexample :
    stateA.obj_model.meshes.length = 1 ∧
    (drawsOf stateA.recordedCommands).length = 2 := by
  constructor
  · rfl
  · rw [State.recordedCommands, drawsOf_append, drawsOf_drawModelInstanced]
    rfl

/-- C5 (amended): within one recorded frame, `State::render` first issues
one indexed draw of the pentagon geometry, then exactly one indexed draw per
mesh of the model, in the model's mesh order, each model draw (and the
pentagon draw) covering the instance range `[0, instance_count)`. -/
theorem render_draw_sequence (s : State) :
    drawsOf s.recordedCommands =
      (0, s.num_indices, 0, 0, s.instances.length) ::
        (s.obj_model.meshes.map fun m =>
          (0, m.num_elements, 0, 0, s.instances.length)) := by
  rw [State.recordedCommands, drawsOf_append, drawsOf_drawModelInstanced]
  rfl

/-! ## C6 — `to_raw` is order-preserving and translates pure positions -/

lemma from_quat_identity : Matrix4.from_quat Quat.identity = 1 := by
  unfold Matrix4.from_quat Quat.identity
  ext i j
  fin_cases i <;> fin_cases j <;>
    simp [Matrix.one_apply, Matrix.vecHead, Matrix.vecTail]

/-- C6: mapping instances to raw matrices preserves length and order
(element `i` of the output is `to_raw` of element `i` of the input), and an
instance with the identity (zero) rotation at position `p` maps to exactly
the translation matrix by `p`. -/
theorem to_raw_order_preserving_and_translation (l : List Instance) (i : ℕ)
    (inst : Instance) (h : inst.rotation = Quat.identity) :
    (instancesToRaw l).length = l.length ∧
    (instancesToRaw l)[i]? = l[i]?.map Instance.to_raw ∧
    inst.to_raw = Matrix4.from_translation inst.position := by
  refine ⟨List.length_map .., ?_, ?_⟩
  · simp [instancesToRaw]
  · rw [Instance.to_raw, h, from_quat_identity, mul_one]

/-- C6 witness: a single identity-rotation instance at `(1, 2, 3)`. -/
theorem to_raw_order_preserving_and_translation_witness :
    (instancesToRaw [⟨⟨1, 2, 3⟩, Quat.identity⟩]).length = 1 ∧
    (instancesToRaw [⟨⟨1, 2, 3⟩, Quat.identity⟩])[0]? =
      some (Instance.to_raw ⟨⟨1, 2, 3⟩, Quat.identity⟩) ∧
    Instance.to_raw ⟨⟨1, 2, 3⟩, Quat.identity⟩ =
      Matrix4.from_translation ⟨1, 2, 3⟩ := by
  have h := to_raw_order_preserving_and_translation
    [⟨⟨1, 2, 3⟩, Quat.identity⟩] 0 ⟨⟨1, 2, 3⟩, Quat.identity⟩ rfl
  exact ⟨h.1, h.2.1, h.2.2⟩

/-! ## C7 — one camera update with only the forward flag held -/

lemma V3.eq_of_fields {a b : V3} (hx : a.x = b.x) (hy : a.y = b.y)
    (hz : a.z = b.z) : a = b := by
  cases a; cases b; simp_all

lemma V3.magnitude_smul (c : ℝ) (v : V3) :
    (c • v).magnitude = |c| * v.magnitude := by
  unfold V3.magnitude
  simp only [V3.smul_def]
  rw [show (c * v.x) ^ 2 + (c * v.y) ^ 2 + (c * v.z) ^ 2
      = c ^ 2 * (v.x ^ 2 + v.y ^ 2 + v.z ^ 2) by ring,
    Real.sqrt_mul (sq_nonneg c), Real.sqrt_sq_eq_abs]

/-- C7: one `update_camera` tick with only the forward flag held, at the
speed 0.1 set by `CameraController::new(0.1)`, leaves `target` unchanged,
displaces `eye` along the original eye→target vector by the positive factor
`0.1 / |target - eye|`, and brings eye exactly 0.1 closer to the target —
strictly closer — provided the eye→target distance exceeds the speed. -/
theorem camera_forward_step (cam : Camera)
    (h : (1 : ℝ) / 10 < (cam.target - cam.eye).magnitude) :
    (CameraController.update_camera
        { CameraController.new (1 / 10) with is_forward_pressed := true }
        cam).target = cam.target ∧
    (CameraController.update_camera
        { CameraController.new (1 / 10) with is_forward_pressed := true }
        cam).eye = cam.eye +
      (((1 : ℝ) / 10) / (cam.target - cam.eye).magnitude) •
        (cam.target - cam.eye) ∧
    (cam.target - (CameraController.update_camera
        { CameraController.new (1 / 10) with is_forward_pressed := true }
        cam).eye).magnitude = (cam.target - cam.eye).magnitude - 1 / 10 ∧
    (cam.target - (CameraController.update_camera
        { CameraController.new (1 / 10) with is_forward_pressed := true }
        cam).eye).magnitude < (cam.target - cam.eye).magnitude := by
  have n_pos : 0 < (cam.target - cam.eye).magnitude :=
    lt_trans (by norm_num) h
  have n_ne : (cam.target - cam.eye).magnitude ≠ 0 := ne_of_gt n_pos
  have heye : (CameraController.update_camera
      { CameraController.new (1 / 10) with is_forward_pressed := true }
      cam).eye = cam.eye +
        ((1 : ℝ) / 10) • (cam.target - cam.eye).normalize := by
    simp [CameraController.update_camera, CameraController.new]
  have hsmul : ((1 : ℝ) / 10) • (cam.target - cam.eye).normalize
      = (((1 : ℝ) / 10) / (cam.target - cam.eye).magnitude) •
          (cam.target - cam.eye) := by
    apply V3.eq_of_fields <;>
      simp only [V3.normalize, V3.smul_def] <;> ring
  have heye2 := heye.trans (congrArg (cam.eye + ·) hsmul)
  have hdiff : cam.target - (cam.eye +
      (((1 : ℝ) / 10) / (cam.target - cam.eye).magnitude) •
        (cam.target - cam.eye))
      = (1 - ((1 : ℝ) / 10) / (cam.target - cam.eye).magnitude) •
          (cam.target - cam.eye) := by
    apply V3.eq_of_fields <;>
      simp only [V3.sub_def, V3.add_def, V3.smul_def] <;> ring
  have hfac_nonneg : (0 : ℝ) ≤
      1 - ((1 : ℝ) / 10) / (cam.target - cam.eye).magnitude := by
    have hlt : ((1 : ℝ) / 10) / (cam.target - cam.eye).magnitude < 1 :=
      (div_lt_one n_pos).mpr h
    linarith
  have hmag : (cam.target - (CameraController.update_camera
      { CameraController.new (1 / 10) with is_forward_pressed := true }
      cam).eye).magnitude = (cam.target - cam.eye).magnitude - 1 / 10 := by
    rw [heye2, hdiff, V3.magnitude_smul, abs_of_nonneg hfac_nonneg,
      sub_mul, one_mul, div_mul_cancel₀ _ n_ne]
  refine ⟨rfl, heye2, hmag, ?_⟩
  rw [hmag]
  linarith

/-- A fixed camera: eye at the origin, target two units ahead on z. -/
noncomputable def camW : Camera :=
  { eye := ⟨0, 0, 0⟩
    target := ⟨0, 0, 2⟩
    up := V3.unit_y
    aspect := 1
    fovy := 45
    znear := 0.1
    zfar := 100 }

/-- C7 witness: at `camW` the eye→target distance is 2 > 0.1, and the
forward tick lands exactly 0.1 closer with the target untouched. -/
theorem camera_forward_step_witness :
    (1 : ℝ) / 10 < (camW.target - camW.eye).magnitude ∧
    (CameraController.update_camera
        { CameraController.new (1 / 10) with is_forward_pressed := true }
        camW).target = camW.target ∧
    (camW.target - (CameraController.update_camera
        { CameraController.new (1 / 10) with is_forward_pressed := true }
        camW).eye).magnitude = (camW.target - camW.eye).magnitude - 1 / 10 ∧
    (camW.target - (CameraController.update_camera
        { CameraController.new (1 / 10) with is_forward_pressed := true }
        camW).eye).magnitude < (camW.target - camW.eye).magnitude := by
  have hmagW : (camW.target - camW.eye).magnitude = 2 := by
    show V3.magnitude ⟨0 - 0, 0 - 0, 2 - 0⟩ = 2
    unfold V3.magnitude
    rw [show ((0 : ℝ) - 0) ^ 2 + ((0 : ℝ) - 0) ^ 2 + ((2 : ℝ) - 0) ^ 2
        = 2 ^ 2 by norm_num,
      Real.sqrt_sq (by norm_num : (0 : ℝ) ≤ 2)]
  have h : (1 : ℝ) / 10 < (camW.target - camW.eye).magnitude := by
    rw [hmagW]; norm_num
  have hc := camera_forward_step camW h
  exact ⟨h, hc.1, hc.2.2.1, hc.2.2.2⟩

/-! ## C4 — the instance grid -/

lemma instanceAt_position (n : ℕ) (S : ℝ) (z x : ℕ) :
    (instanceAt n S z x).position = gridPosition n S z x := rfl

lemma buildInstances_length (n : ℕ) (S : ℝ) :
    (buildInstances n S).length = n * n := by
  simp [buildInstances, Function.comp_def, List.map_const', List.sum_replicate,
    smul_eq_mul]

lemma buildInstances_map_position (n : ℕ) (S : ℝ) :
    (buildInstances n S).map Instance.position =
      (List.range n).flatMap fun z => (List.range n).map (gridPosition n S z) := by
  simp [buildInstances, List.map_flatMap, List.map_map, Function.comp_def,
    instanceAt_position]

lemma gridPosition_inj_col (n : ℕ) (S : ℝ) (hS : 0 < S) (z : ℕ) :
    Function.Injective (gridPosition n S z) := by
  intro a b hab
  have hx := congrArg V3.x hab
  simp only [gridPosition] at hx
  have h1 : (a : ℝ) - (n : ℝ) / 2 = (b : ℝ) - (n : ℝ) / 2 :=
    mul_left_cancel₀ (ne_of_gt hS) hx
  have h2 : (a : ℝ) = (b : ℝ) := by linarith
  exact_mod_cast h2

lemma buildInstances_positions_nodup (n : ℕ) (S : ℝ) (hS : 0 < S) :
    ((buildInstances n S).map Instance.position).Nodup := by
  rw [buildInstances_map_position, List.nodup_flatMap]
  constructor
  · intro a _
    exact (List.nodup_range n).map (gridPosition_inj_col n S hS a)
  · refine (List.pairwise_lt_range n).imp ?_
    intro a b hab v hv hv'
    simp only [List.mem_map, List.mem_range] at hv hv'
    obtain ⟨x, _, rfl⟩ := hv
    obtain ⟨x', _, he⟩ := hv'
    have hz := congrArg V3.z he
    simp only [gridPosition] at hz
    have h1 : (b : ℝ) - (n : ℝ) / 2 = (a : ℝ) - (n : ℝ) / 2 :=
      mul_left_cancel₀ (ne_of_gt hS) hz
    have h2 : (b : ℝ) = (a : ℝ) := by linarith
    have : b = a := by exact_mod_cast h2
    omega

lemma from_axis_angle_zero (axis : V3) :
    Quat.from_axis_angle axis 0 = Quat.identity := by
  unfold Quat.from_axis_angle Quat.identity
  rw [show (0 : ℝ) * Real.pi / 360 = 0 by ring]
  simp

lemma from_axis_angle_45_ne_identity (axis : V3) :
    Quat.from_axis_angle axis 45 ≠ Quat.identity := by
  intro hEq
  have hw := congrArg Quat.w hEq
  simp only [Quat.from_axis_angle, Quat.identity] at hw
  rw [show (45 : ℝ) * Real.pi / 360 = Real.pi / 8 by ring] at hw
  have hlt : Real.cos (Real.pi / 8) < Real.cos 0 := by
    apply Real.cos_lt_cos_of_nonneg_of_le_pi le_rfl
    · linarith [Real.pi_pos]
    · positivity
  rw [Real.cos_zero, hw] at hlt
  exact lt_irrefl 1 hlt

lemma instanceAt_rotation_of_position_zero (n : ℕ) (S : ℝ) (z x : ℕ)
    (h : gridPosition n S z x = 0) :
    (instanceAt n S z x).rotation = Quat.identity := by
  simp only [instanceAt]
  rw [if_pos h]
  exact from_axis_angle_zero V3.unit_z

lemma buildInstances_origin_identity (n : ℕ) (S : ℝ) :
    ∀ inst ∈ buildInstances n S, inst.position = 0 →
      inst.rotation = Quat.identity := by
  intro inst hmem hpos
  simp only [buildInstances, List.mem_flatMap, List.mem_map] at hmem
  obtain ⟨a, _, x, _, rfl⟩ := hmem
  exact instanceAt_rotation_of_position_zero n S a x hpos

lemma buildInstances_head (n : ℕ) (S : ℝ) (hn : 0 < n) :
    (buildInstances n S).head? = some (instanceAt n S 0 0) := by
  obtain ⟨m, rfl⟩ : ∃ m, n = m + 1 := ⟨n - 1, by omega⟩
  rw [buildInstances, List.range_succ_eq_map, List.flatMap_cons]
  rfl

lemma instanceAt_zero_zero (n : ℕ) (S : ℝ) (hn : 0 < n) (hS : 0 < S) :
    instanceAt n S 0 0 =
      ⟨gridPosition n S 0 0,
       Quat.from_axis_angle (gridPosition n S 0 0).normalize 45⟩ := by
  have hn' : (0 : ℝ) < (n : ℝ) := by exact_mod_cast hn
  have hx : (gridPosition n S 0 0).x ≠ 0 := by
    simp only [gridPosition, Nat.cast_zero]
    intro hc
    rcases mul_eq_zero.mp hc with h1 | h2
    · exact hS.ne' h1
    · have : (n : ℝ) / 2 = 0 := by linarith
      linarith
  have hpos : gridPosition n S 0 0 ≠ 0 := fun hzero =>
    hx (by rw [hzero]; rfl)
  simp only [instanceAt]
  rw [if_neg hpos]

/-- C4 (counterexample): for the source's constants
(`NUM_INSTANCES_PER_ROW = 10`, `SPACE_BETWEEN = 3.0`), the entry at grid
cell (0,0) — the first built instance — has position `(-15, 0, -15)`, not
the origin, and its rotation is a 45° rotation about the normalized
position, not the identity rotation. -/
theorem instance_grid_cell00_counterexample :
    (buildInstances 10 3).head? = some (instanceAt 10 3 0 0) ∧
    (instanceAt 10 3 0 0).position = ⟨-15, 0, -15⟩ ∧
    (instanceAt 10 3 0 0).rotation =
      Quat.from_axis_angle (V3.normalize ⟨-15, 0, -15⟩) 45 ∧
    (instanceAt 10 3 0 0).rotation ≠ Quat.identity := by
  have hpos : gridPosition 10 3 0 0 = (⟨-15, 0, -15⟩ : V3) := by
    unfold gridPosition
    norm_num [V3.mk.injEq]
  have hinst := instanceAt_zero_zero 10 3 (by norm_num) (by norm_num)
  refine ⟨buildInstances_head 10 3 (by norm_num), ?_, ?_, ?_⟩
  · rw [instanceAt_position, hpos]
  · rw [hinst]
    rw [hpos]
  · rw [hinst]
    exact from_axis_angle_45_ne_identity _

/-- C4 (amended): building the instance set for an N×N grid with positive
spacing S produces exactly N² instances, each with a distinct grid-derived
position; any cell whose position is exactly the origin gets the identity
rotation, but the entry at grid cell (0,0) is not at the origin — its
rotation is a 45° rotation about its normalized position, which is not the
identity rotation. -/
theorem instance_grid_spec (n : ℕ) (S : ℝ) (hn : 0 < n) (hS : 0 < S) :
    (buildInstances n S).length = n * n ∧
    ((buildInstances n S).map Instance.position).Nodup ∧
    (∀ inst ∈ buildInstances n S, inst.position = 0 →
      inst.rotation = Quat.identity) ∧
    (buildInstances n S).head? = some
      ⟨gridPosition n S 0 0,
       Quat.from_axis_angle (gridPosition n S 0 0).normalize 45⟩ ∧
    Quat.from_axis_angle (gridPosition n S 0 0).normalize 45 ≠ Quat.identity :=
  ⟨buildInstances_length n S, buildInstances_positions_nodup n S hS,
   buildInstances_origin_identity n S,
   by rw [buildInstances_head n S hn, instanceAt_zero_zero n S hn hS],
   from_axis_angle_45_ne_identity _⟩

/-- C4 witness at the source's constants `n = 10`, `S = 3`. -/
theorem instance_grid_spec_witness :
    (buildInstances 10 3).length = 10 * 10 ∧
    ((buildInstances 10 3).map Instance.position).Nodup ∧
    (∀ inst ∈ buildInstances 10 3, inst.position = 0 →
      inst.rotation = Quat.identity) ∧
    (buildInstances 10 3).head? = some
      ⟨gridPosition 10 3 0 0,
       Quat.from_axis_angle (gridPosition 10 3 0 0).normalize 45⟩ ∧
    Quat.from_axis_angle (gridPosition 10 3 0 0).normalize 45 ≠ Quat.identity :=
  instance_grid_spec 10 3 (by norm_num) (by norm_num)

end WgpuLearn
